import Mathlib

/-!
Verification of the guarded write path of the transaction-insights agent.

The single piece of procedural logic in the repository is the function
`execute_confirmed_update` in `src/txn_insights_agent/agent.py`:

```python
def execute_confirmed_update(sql_query: str) -> str:
    query_lower = sql_query.strip().lower()
    if not (query_lower.startswith('insert') or query_lower.startswith('update')
            or query_lower.startswith('delete')):
        return "Error: This tool can only be used for INSERT, UPDATE, or DELETE statements. Use the execute_sql tool for SELECT queries."
    try:
        query_job = bq_client.query(sql_query)
        query_job.result()
        if query_job.num_dml_affected_rows is not None:
            return f"Operation successful, \x7bquery_job.num_dml_affected_rows\x7d row(s) affected."
        else:
            return "Operation successful, but the number of affected rows is not available."
    except exceptions.GoogleAPICallError as e:
        return f"An API error occurred: \x7be\x7d"
    except Exception as e:
        return f"A general error occurred: \x7be\x7d"
```

Strings are embedded as `List Char`.  Python's `str.strip()` (no argument)
and `str.lower()` are embedded for the ASCII range, which covers the SQL
keywords and whitespace the guard inspects.  The BigQuery client is an
external collaborator; it is embedded as a function from the submitted
query text to an outcome (`EngineOutcome`), covering the three observable
behaviours of `bq_client.query(...)` / `query_job.result()`: completion
with an optional `num_dml_affected_rows`, a raised
`exceptions.GoogleAPICallError`, and any other raised exception.  The
embedded `execute_confirmed_update` returns, besides the result string, the
list of query texts submitted to the engine, so that "the database is never
contacted" and "exactly one call" are stated as facts about that list.
-/

namespace TxnInsights

/-- Whitespace predicate of Python's `str.strip()` with no argument,
restricted to ASCII: space, tab, newline, carriage return, vertical tab,
form feed. -/
def pyIsSpace (c : Char) : Bool :=
  c == ' ' || c == '\t' || c == '\n' || c == '\r' || c == '\x0b' || c == '\x0c'

/-- ASCII case mapping of Python's `str.lower()`: each uppercase letter
goes to its lowercase counterpart, every other character is unchanged. -/
def pyToLower (c : Char) : Char :=
  match c with
  | 'A' => 'a' | 'B' => 'b' | 'C' => 'c' | 'D' => 'd' | 'E' => 'e' | 'F' => 'f'
  | 'G' => 'g' | 'H' => 'h' | 'I' => 'i' | 'J' => 'j' | 'K' => 'k' | 'L' => 'l'
  | 'M' => 'm' | 'N' => 'n' | 'O' => 'o' | 'P' => 'p' | 'Q' => 'q' | 'R' => 'r'
  | 'S' => 's' | 'T' => 't' | 'U' => 'u' | 'V' => 'v' | 'W' => 'w' | 'X' => 'x'
  | 'Y' => 'y' | 'Z' => 'z'
  | c => c

/-- Python `str.lower()` over a whole string. -/
def pyLower (s : List Char) : List Char :=
  s.map pyToLower

/-- Removal of leading whitespace (the left half of Python `str.strip()`). -/
def stripLeft (s : List Char) : List Char :=
  s.dropWhile pyIsSpace

/-- Removal of trailing whitespace (the right half of Python `str.strip()`). -/
def stripRight (s : List Char) : List Char :=
  (s.reverse.dropWhile pyIsSpace).reverse

/-- Python `str.strip()`: leading and trailing whitespace removed. -/
def pyStrip (s : List Char) : List Char :=
  stripRight (stripLeft s)

/-- Python `str.startswith(p)`: `startsWith p s` is true iff `p` is a
prefix of `s`. -/
def startsWith : List Char → List Char → Bool
  | [], _ => true
  | _ :: _, [] => false
  | p :: ps, c :: cs => p == c && startsWith ps cs

/-- The literal `'insert'` tested by the guard. -/
def insKw : List Char := ['i', 'n', 's', 'e', 'r', 't']

/-- The literal `'update'` tested by the guard. -/
def updKw : List Char := ['u', 'p', 'd', 'a', 't', 'e']

/-- The literal `'delete'` tested by the guard. -/
def delKw : List Char := ['d', 'e', 'l', 'e', 't', 'e']

/-- Statement kinds distinguished by the guard: the three mutating
keywords it tests for, and `unrecognized` for everything else. -/
inductive StmtKind where
  | insert
  | update
  | delete
  | unrecognized
deriving DecidableEq, Repr

/-- Classification of a statement, read off the guard's condition
`sql_query.strip().lower().startswith(...)`: the tests are applied to
`query_lower = pyLower (pyStrip sql_query)` in the source's order
(insert, update, delete); a statement passing none of them is
`unrecognized`. -/
def classify (s : List Char) : StmtKind :=
  if startsWith insKw (pyLower (pyStrip s)) then StmtKind.insert
  else if startsWith updKw (pyLower (pyStrip s)) then StmtKind.update
  else if startsWith delKw (pyLower (pyStrip s)) then StmtKind.delete
  else StmtKind.unrecognized

/-- The statement kinds the guard lets through, as hard-coded by the
three `startswith` literals in the source. -/
def permittedKinds : List StmtKind :=
  [StmtKind.insert, StmtKind.update, StmtKind.delete]

/-- The guard's boolean condition, written exactly as the disjunction in
`if not (query_lower.startswith('insert') or query_lower.startswith('update')
or query_lower.startswith('delete'))`. -/
def isPermitted (s : List Char) : Bool :=
  startsWith insKw (pyLower (pyStrip s)) || startsWith updKw (pyLower (pyStrip s))
    || startsWith delKw (pyLower (pyStrip s))

/-- Observable behaviour of one interaction with the BigQuery engine
(`bq_client.query` followed by `query_job.result()`): completion with the
job's optional `num_dml_affected_rows`, a raised
`exceptions.GoogleAPICallError` with its text, or any other raised
exception with its text. -/
inductive EngineOutcome where
  | ok (numDmlAffectedRows : Option Nat)
  | apiCallError (detail : List Char)
  | otherError (detail : List Char)

/-- An execution engine: the outcome it produces for a submitted query
text. -/
abbrev Engine := List Char → EngineOutcome

/-- The guard's rejection message (the early `return` of the source). -/
def policyRejectionMsg : List Char :=
  ("Error: This tool can only be used for INSERT, UPDATE, or DELETE statements. Use the execute_sql tool for SELECT queries.").data

/-- Success message when `num_dml_affected_rows` is reported as `k`. -/
def successMsg (k : Nat) : List Char :=
  ("Operation successful, ").data ++ (Nat.repr k).data ++ (" row(s) affected.").data

/-- Success message when `num_dml_affected_rows` is `None`. -/
def unknownRowsMsg : List Char :=
  ("Operation successful, but the number of affected rows is not available.").data

/-- Message for a caught `exceptions.GoogleAPICallError`. -/
def apiErrorMsg (detail : List Char) : List Char :=
  ("An API error occurred: ").data ++ detail

/-- Message for any other caught exception. -/
def generalErrorMsg (detail : List Char) : List Char :=
  ("A general error occurred: ").data ++ detail

/-- Embedding of `execute_confirmed_update`.  The first component is the
returned string; the second records every query text submitted to the
engine (empty on the rejection path, a single verbatim `sql_query`
otherwise). -/
def execute_confirmed_update (engine : Engine) (sql_query : List Char) :
    List Char × List (List Char) :=
  if !(startsWith insKw (pyLower (pyStrip sql_query))
      || startsWith updKw (pyLower (pyStrip sql_query))
      || startsWith delKw (pyLower (pyStrip sql_query))) then
    (policyRejectionMsg, [])
  else
    match engine sql_query with
    | EngineOutcome.ok (some k) => (successMsg k, [sql_query])
    | EngineOutcome.ok none => (unknownRowsMsg, [sql_query])
    | EngineOutcome.apiCallError d => (apiErrorMsg d, [sql_query])
    | EngineOutcome.otherError d => (generalErrorMsg d, [sql_query])

/-- Guard with the permitted kinds as a parameter, following the spec's
contract ("the set of statement kinds this invocation is permitted to
execute (a configuration parameter...)"), over the source's prefix-based
classification.  Used to compare the source, whose permitted kinds are
the three hard-coded literals, with the configurable guard the spec
describes. -/
def guardWithPermitted (permitted : List StmtKind) (s : List Char) : Bool :=
  decide (classify s ∈ permitted)

/-- The keyword `select`, which the guard's condition does not test for;
used to state classification facts about read statements. -/
def selKw : List Char := ['s', 'e', 'l', 'e', 'c', 't']

/-! Helper lemmas about the embedded string primitives. -/

lemma pyIsSpace_pyToLower (c : Char) : pyIsSpace (pyToLower c) = pyIsSpace c := by
  unfold pyToLower
  split <;> rfl

lemma stripLeft_append_space {a : List Char} (b : List Char)
    (h : ∀ c ∈ a, pyIsSpace c = true) : stripLeft (a ++ b) = stripLeft b := by
  unfold stripLeft
  exact List.dropWhile_append_of_pos h

lemma stripRight_append_space {b : List Char} (a : List Char)
    (h : ∀ c ∈ b, pyIsSpace c = true) : stripRight (a ++ b) = stripRight a := by
  unfold stripRight
  rw [List.reverse_append,
    List.dropWhile_append_of_pos (fun c hc => h c (List.mem_reverse.mp hc))]

lemma stripLeft_eq_nil {s : List Char} (h : ∀ c ∈ s, pyIsSpace c = true) :
    stripLeft s = [] := by
  unfold stripLeft
  exact List.dropWhile_eq_nil_iff.mpr h

lemma stripRight_append_keep {c : Char} (hc : pyIsSpace c = false)
    (a r : List Char) : stripRight ((a ++ [c]) ++ r) = (a ++ [c]) ++ stripRight r := by
  unfold stripRight
  have hnc : ¬ (pyIsSpace c = true) := by simp [hc]
  rw [List.reverse_append, List.reverse_append, List.reverse_singleton,
    List.singleton_append, List.dropWhile_append]
  by_cases hr : (List.dropWhile pyIsSpace r.reverse).isEmpty
  · rw [if_pos hr, List.dropWhile_cons_of_neg hnc, List.reverse_cons,
      List.reverse_reverse]
    have hnil : List.dropWhile pyIsSpace r.reverse = [] := List.isEmpty_iff.mp hr
    rw [hnil]
    simp
  · rw [if_neg hr, List.reverse_append, List.reverse_cons, List.reverse_reverse]

lemma pyStrip_append_space {w1 w2 : List Char} (s : List Char)
    (h1 : ∀ c ∈ w1, pyIsSpace c = true) (h2 : ∀ c ∈ w2, pyIsSpace c = true) :
    pyStrip (w1 ++ s ++ w2) = pyStrip s := by
  unfold pyStrip
  rw [List.append_assoc, stripLeft_append_space _ h1]
  by_cases hs : ∀ c ∈ s, pyIsSpace c = true
  · rw [stripLeft_append_space _ hs, stripLeft_eq_nil h2, stripLeft_eq_nil hs]
  · have hne : stripLeft s ≠ [] := fun hnil => hs (List.dropWhile_eq_nil_iff.mp hnil)
    have hsl : stripLeft (s ++ w2) = stripLeft s ++ w2 := by
      unfold stripLeft at hne ⊢
      have hni : ¬ ((List.dropWhile pyIsSpace s).isEmpty = true) := by
        simp only [List.isEmpty_iff]
        exact hne
      rw [List.dropWhile_append, if_neg hni]
    rw [hsl]
    exact stripRight_append_space _ h2

lemma dropWhile_pyLower (l : List Char) :
    List.dropWhile pyIsSpace (pyLower l) = pyLower (List.dropWhile pyIsSpace l) := by
  unfold pyLower
  rw [List.dropWhile_map]
  have hps : pyIsSpace ∘ pyToLower = pyIsSpace := funext pyIsSpace_pyToLower
  rw [hps]

lemma stripRight_pyLower (l : List Char) :
    stripRight (pyLower l) = pyLower (stripRight l) := by
  unfold stripRight pyLower
  rw [← List.map_reverse]
  have h := dropWhile_pyLower l.reverse
  unfold pyLower at h
  rw [h, ← List.map_reverse]

lemma pyStrip_pyLower (s : List Char) :
    pyStrip (pyLower s) = pyLower (pyStrip s) := by
  unfold pyStrip stripLeft
  rw [dropWhile_pyLower, stripRight_pyLower]

lemma startsWith_append_self (a z : List Char) : startsWith a (a ++ z) = true := by
  induction a with
  | nil => rfl
  | cons c cs ih => simp [startsWith, ih]

lemma startsWith_cons_false {a c : Char} (h : (a == c) = false) (ps cs : List Char) :
    startsWith (a :: ps) (c :: cs) = false := by
  simp [startsWith, h]

/-! Helper lemmas about the guard's classification and branches. -/

lemma isPermitted_false_iff (s : List Char) :
    isPermitted s = false ↔ classify s = StmtKind.unrecognized := by
  unfold isPermitted classify
  cases h1 : startsWith insKw (pyLower (pyStrip s)) <;>
    cases h2 : startsWith updKw (pyLower (pyStrip s)) <;>
      cases h3 : startsWith delKw (pyLower (pyStrip s)) <;>
        simp [h1, h2, h3]

lemma classify_mem_permitted_iff (s : List Char) :
    classify s ∈ permittedKinds ↔ isPermitted s = true := by
  unfold permittedKinds
  constructor
  · intro h
    cases hp : isPermitted s
    · rw [(isPermitted_false_iff s).mp hp] at h
      simp at h
    · rfl
  · intro hp
    unfold isPermitted at hp
    unfold classify
    cases h1 : startsWith insKw (pyLower (pyStrip s)) <;>
      cases h2 : startsWith updKw (pyLower (pyStrip s)) <;>
        cases h3 : startsWith delKw (pyLower (pyStrip s)) <;>
          simp [h1, h2, h3] at hp ⊢

lemma exec_of_reject {s : List Char} (engine : Engine) (hp : isPermitted s = false) :
    execute_confirmed_update engine s = (policyRejectionMsg, []) := by
  unfold isPermitted at hp
  unfold execute_confirmed_update
  rw [hp]
  rfl

lemma exec_of_permit {s : List Char} (engine : Engine) (hp : isPermitted s = true) :
    execute_confirmed_update engine s =
      (match engine s with
        | EngineOutcome.ok (some k) => (successMsg k, [s])
        | EngineOutcome.ok none => (unknownRowsMsg, [s])
        | EngineOutcome.apiCallError d => (apiErrorMsg d, [s])
        | EngineOutcome.otherError d => (generalErrorMsg d, [s])) := by
  unfold isPermitted at hp
  unfold execute_confirmed_update
  rw [hp]
  rfl

lemma pyStrip_insKw_append (r : List Char) :
    pyStrip (insKw ++ r) = insKw ++ stripRight r := by
  unfold pyStrip
  have h1 : stripLeft (insKw ++ r) = insKw ++ r := by
    unfold stripLeft insKw
    rw [List.cons_append, List.dropWhile_cons_of_neg (by decide)]
  rw [h1]
  exact stripRight_append_keep (c := 't') (by decide) ['i', 'n', 's', 'e', 'r'] r

lemma pyStrip_updKw_append (r : List Char) :
    pyStrip (updKw ++ r) = updKw ++ stripRight r := by
  unfold pyStrip
  have h1 : stripLeft (updKw ++ r) = updKw ++ r := by
    unfold stripLeft updKw
    rw [List.cons_append, List.dropWhile_cons_of_neg (by decide)]
  rw [h1]
  exact stripRight_append_keep (c := 'e') (by decide) ['u', 'p', 'd', 'a', 't'] r

lemma pyStrip_delKw_append (r : List Char) :
    pyStrip (delKw ++ r) = delKw ++ stripRight r := by
  unfold pyStrip
  have h1 : stripLeft (delKw ++ r) = delKw ++ r := by
    unfold stripLeft delKw
    rw [List.cons_append, List.dropWhile_cons_of_neg (by decide)]
  rw [h1]
  exact stripRight_append_keep (c := 'e') (by decide) ['d', 'e', 'l', 'e', 't'] r

lemma pyStrip_selKw_append (r : List Char) :
    pyStrip (selKw ++ r) = selKw ++ stripRight r := by
  unfold pyStrip
  have h1 : stripLeft (selKw ++ r) = selKw ++ r := by
    unfold stripLeft selKw
    rw [List.cons_append, List.dropWhile_cons_of_neg (by decide)]
  rw [h1]
  exact stripRight_append_keep (c := 't') (by decide) ['s', 'e', 'l', 'e', 'c'] r

lemma classify_insKw_append (r : List Char) :
    classify (insKw ++ r) = StmtKind.insert := by
  unfold classify
  rw [pyStrip_insKw_append]
  unfold pyLower
  rw [List.map_append]
  have hl : List.map pyToLower insKw = insKw := by decide
  rw [hl]
  have hi : startsWith insKw (insKw ++ List.map pyToLower (stripRight r)) = true :=
    startsWith_append_self _ _
  simp [hi]

lemma classify_updKw_append (r : List Char) :
    classify (updKw ++ r) = StmtKind.update := by
  unfold classify
  rw [pyStrip_updKw_append]
  unfold pyLower
  rw [List.map_append]
  have hl : List.map pyToLower updKw = updKw := by decide
  rw [hl]
  have hi : startsWith insKw (updKw ++ List.map pyToLower (stripRight r)) = false :=
    startsWith_cons_false (by decide) _ _
  have hu : startsWith updKw (updKw ++ List.map pyToLower (stripRight r)) = true :=
    startsWith_append_self _ _
  simp [hi, hu]

lemma classify_delKw_append (r : List Char) :
    classify (delKw ++ r) = StmtKind.delete := by
  unfold classify
  rw [pyStrip_delKw_append]
  unfold pyLower
  rw [List.map_append]
  have hl : List.map pyToLower delKw = delKw := by decide
  rw [hl]
  have hi : startsWith insKw (delKw ++ List.map pyToLower (stripRight r)) = false :=
    startsWith_cons_false (by decide) _ _
  have hu : startsWith updKw (delKw ++ List.map pyToLower (stripRight r)) = false :=
    startsWith_cons_false (by decide) _ _
  have hd : startsWith delKw (delKw ++ List.map pyToLower (stripRight r)) = true :=
    startsWith_append_self _ _
  simp [hi, hu, hd]

lemma classify_selKw_append (r : List Char) :
    classify (selKw ++ r) = StmtKind.unrecognized := by
  unfold classify
  rw [pyStrip_selKw_append]
  unfold pyLower
  rw [List.map_append]
  have hl : List.map pyToLower selKw = selKw := by decide
  rw [hl]
  have hi : startsWith insKw (selKw ++ List.map pyToLower (stripRight r)) = false :=
    startsWith_cons_false (by decide) _ _
  have hu : startsWith updKw (selKw ++ List.map pyToLower (stripRight r)) = false :=
    startsWith_cons_false (by decide) _ _
  have hd : startsWith delKw (selKw ++ List.map pyToLower (stripRight r)) = false :=
    startsWith_cons_false (by decide) _ _
  simp [hi, hu, hd]

/-! Claim theorems. -/

/-- Claim C1: for every statement whose classified kind is not in the
permitted set, `execute_confirmed_update` returns the policy-rejection
result, the rejection message names the permitted kinds INSERT, UPDATE
and DELETE, and the execution engine is never invoked (no query is
submitted). -/
theorem unpermitted_rejected_without_execution (engine : Engine) (s : List Char)
    (h : classify s ∉ permittedKinds) :
    execute_confirmed_update engine s = (policyRejectionMsg, []) ∧
    List.IsInfix ("INSERT").data policyRejectionMsg ∧
    List.IsInfix ("UPDATE").data policyRejectionMsg ∧
    List.IsInfix ("DELETE").data policyRejectionMsg := by
  refine ⟨?_, by decide, by decide, by decide⟩
  have hp : isPermitted s = false := by
    cases hb : isPermitted s
    · rfl
    · exact absurd ((classify_mem_permitted_iff s).mpr hb) h
  exact exec_of_reject engine hp

/-- Witness for claim C1 at a concrete rejected input: a SELECT query. -/
theorem unpermitted_rejected_without_execution_check :
    classify ("SELECT consumer_name FROM txns").data ∉ permittedKinds ∧
    (execute_confirmed_update (fun _ => EngineOutcome.ok (some 0))
        ("SELECT consumer_name FROM txns").data = (policyRejectionMsg, []) ∧
      List.IsInfix ("INSERT").data policyRejectionMsg ∧
      List.IsInfix ("UPDATE").data policyRejectionMsg ∧
      List.IsInfix ("DELETE").data policyRejectionMsg) :=
  ⟨by decide, unpermitted_rejected_without_execution _ _ (by decide)⟩

/-- Claim C3: for every statement whose classified kind is permitted,
exactly one query is submitted to the engine, and the submitted text is
the caller's statement unmodified. -/
theorem permitted_single_verbatim_submission (engine : Engine) (s : List Char)
    (h : classify s ∈ permittedKinds) :
    (execute_confirmed_update engine s).2 = [s] := by
  have hp : isPermitted s = true := (classify_mem_permitted_iff s).mp h
  rw [exec_of_permit engine hp]
  cases he : engine s with
  | ok k => cases k <;> rfl
  | apiCallError d => rfl
  | otherError d => rfl

/-- Witness for claim C3: the submitted text keeps the leading blanks
and the mixed-case keyword of the caller's statement. -/
theorem permitted_single_verbatim_submission_check :
    classify ("  Update txns SET is_recurring=TRUE WHERE id=5").data ∈ permittedKinds ∧
    (execute_confirmed_update (fun _ => EngineOutcome.ok (some 1))
        ("  Update txns SET is_recurring=TRUE WHERE id=5").data).2
      = [("  Update txns SET is_recurring=TRUE WHERE id=5").data] :=
  ⟨by decide, permitted_single_verbatim_submission _ _ (by decide)⟩

/-- Claim C4: when the engine reports an affected-row count `k`, the
result is the success message carrying exactly `k`; when the engine
reports no count, the result is the explicit unknown-count message,
which is not the success message with count 0. -/
theorem affected_rows_reporting (engine : Engine) (s : List Char)
    (h : classify s ∈ permittedKinds) :
    (∀ k, engine s = EngineOutcome.ok (some k) →
      (execute_confirmed_update engine s).1 = successMsg k) ∧
    (engine s = EngineOutcome.ok none →
      (execute_confirmed_update engine s).1 = unknownRowsMsg ∧
      (execute_confirmed_update engine s).1 ≠ successMsg 0) := by
  have hp : isPermitted s = true := (classify_mem_permitted_iff s).mp h
  constructor
  · intro k hk
    rw [exec_of_permit engine hp, hk]
  · intro hk
    rw [exec_of_permit engine hp, hk]
    refine ⟨rfl, ?_⟩
    show unknownRowsMsg ≠ successMsg 0
    decide

/-- Witness for claim C4 at the spec's scenario: the engine reports one
affected row and the result renders it. -/
theorem affected_rows_reporting_check :
    classify ("  Update txns SET is_recurring=TRUE WHERE id=5").data ∈ permittedKinds ∧
    (execute_confirmed_update (fun _ => EngineOutcome.ok (some 1))
        ("  Update txns SET is_recurring=TRUE WHERE id=5").data).1
      = ("Operation successful, 1 row(s) affected.").data :=
  ⟨by decide, by
    have h := (affected_rows_reporting (fun _ => EngineOutcome.ok (some 1))
      ("  Update txns SET is_recurring=TRUE WHERE id=5").data (by decide)).1 1 rfl
    rw [h]
    decide⟩

/-- Claim C5: when the engine raises its typed API-layer error, the
result text is the API-error category followed by the engine's
diagnostic detail verbatim (so it contains the category "API error"),
and only the one original query was submitted (no retry). -/
theorem api_error_verbatim (engine : Engine) (s : List Char) (d : List Char)
    (h : classify s ∈ permittedKinds) (he : engine s = EngineOutcome.apiCallError d) :
    (execute_confirmed_update engine s).1 = apiErrorMsg d ∧
    List.IsInfix ("API error").data ((execute_confirmed_update engine s).1) ∧
    (execute_confirmed_update engine s).2 = [s] := by
  have hp : isPermitted s = true := (classify_mem_permitted_iff s).mp h
  rw [exec_of_permit engine hp, he]
  refine ⟨rfl, ?_, rfl⟩
  show List.IsInfix ("API error").data (apiErrorMsg d)
  refine ⟨("An ").data, (" occurred: ").data ++ d, ?_⟩
  simp only [← List.append_assoc]
  rfl

/-- Witness for claim C5 at a concrete API failure. -/
theorem api_error_verbatim_check :
    classify ("DELETE FROM categorization_rules WHERE rule_id=7").data ∈ permittedKinds ∧
    ((execute_confirmed_update (fun _ => EngineOutcome.apiCallError ("403 Access Denied").data)
        ("DELETE FROM categorization_rules WHERE rule_id=7").data).1
      = apiErrorMsg ("403 Access Denied").data ∧
    List.IsInfix ("API error").data
      ((execute_confirmed_update (fun _ => EngineOutcome.apiCallError ("403 Access Denied").data)
        ("DELETE FROM categorization_rules WHERE rule_id=7").data).1) ∧
    (execute_confirmed_update (fun _ => EngineOutcome.apiCallError ("403 Access Denied").data)
        ("DELETE FROM categorization_rules WHERE rule_id=7").data).2
      = [("DELETE FROM categorization_rules WHERE rule_id=7").data]) :=
  ⟨by decide, api_error_verbatim _ _ _ (by decide) rfl⟩

/-- Claim C6: every invocation returns one of the five descriptive
result strings — rejection, success with a count, success with unknown
count, API error, or general error — so no engine failure escapes the
function; and when the engine fails with anything other than the typed
API error, the result is the general-error category followed by the
exception's text. -/
theorem every_path_returns_result (engine : Engine) (s : List Char) :
    ((execute_confirmed_update engine s).1 = policyRejectionMsg ∨
      (∃ k, (execute_confirmed_update engine s).1 = successMsg k) ∨
      (execute_confirmed_update engine s).1 = unknownRowsMsg ∨
      (∃ d, (execute_confirmed_update engine s).1 = apiErrorMsg d) ∨
      (∃ d, (execute_confirmed_update engine s).1 = generalErrorMsg d)) ∧
    (∀ d, classify s ∈ permittedKinds → engine s = EngineOutcome.otherError d →
      (execute_confirmed_update engine s).1 = generalErrorMsg d) := by
  constructor
  · cases hb : isPermitted s
    · rw [exec_of_reject engine hb]
      exact Or.inl rfl
    · rw [exec_of_permit engine hb]
      cases he : engine s with
      | ok k =>
        cases k with
        | none => exact Or.inr (Or.inr (Or.inl rfl))
        | some n => exact Or.inr (Or.inl ⟨n, rfl⟩)
      | apiCallError d => exact Or.inr (Or.inr (Or.inr (Or.inl ⟨d, rfl⟩)))
      | otherError d => exact Or.inr (Or.inr (Or.inr (Or.inr ⟨d, rfl⟩)))
  · intro d h he
    have hp : isPermitted s = true := (classify_mem_permitted_iff s).mp h
    rw [exec_of_permit engine hp, he]

/-- Witness for claim C6 at the spec's scenario: a generic
connection-reset failure is converted to the general-error string. -/
theorem every_path_returns_result_check :
    classify ("insert into txns values (1)").data ∈ permittedKinds ∧
    (execute_confirmed_update (fun _ => EngineOutcome.otherError ("Connection reset by peer").data)
        ("insert into txns values (1)").data).1
      = generalErrorMsg ("Connection reset by peer").data :=
  ⟨by decide,
    (every_path_returns_result (fun _ => EngineOutcome.otherError ("Connection reset by peer").data)
      ("insert into txns values (1)").data).2 _ (by decide) rfl⟩

/-- Counterexample to claim C2 as stated: the statement
`"updates t SET is_recurring=TRUE"` has first token `updates`, a known
keyword followed by extra characters without intervening whitespace, yet
the source classifies it as `update` (its condition is
`startswith('update')`, a prefix test), not as `unrecognized`. -/
theorem classification_not_token_exact :
    classify ("updates t SET is_recurring=TRUE").data = StmtKind.update ∧
    ¬ classify ("updates t SET is_recurring=TRUE").data = StmtKind.unrecognized := by
  exact ⟨by decide, by decide⟩

/-- Claim C2 as amended: classification takes the trimmed, lower-cased
text and tests whether it begins with a known keyword (a prefix test,
not first-token equality), in the source's order insert, update,
delete.  A known keyword followed by extra characters without
intervening whitespace therefore classifies as that keyword, while an
input that begins with no known keyword — such as `"SelectX"` or
`"selectively drop"` — is `unrecognized`. -/
theorem classification_matches_leading_keyword :
    (∀ r : List Char, classify (insKw ++ r) = StmtKind.insert) ∧
    (∀ r : List Char, classify (updKw ++ r) = StmtKind.update) ∧
    (∀ r : List Char, classify (delKw ++ r) = StmtKind.delete) ∧
    classify ("SelectX").data = StmtKind.unrecognized ∧
    classify ("selectively drop").data = StmtKind.unrecognized := by
  exact ⟨classify_insKw_append, classify_updKw_append, classify_delKw_append,
    by decide, by decide⟩

/-- Counterexample to claim C7 as stated: the spec's configurable guard,
deployed with the permitted set restricted to update and delete, rejects
an INSERT statement, but the source's guard — whose permitted kinds are
the three hard-coded `startswith` literals — accepts the same statement
and submits it to the engine.  The permitted set is therefore not an
input of the function. -/
theorem guard_not_configurable :
    guardWithPermitted [StmtKind.update, StmtKind.delete]
        ("INSERT INTO categorization_rules (rule_id) VALUES (1)").data = false ∧
    isPermitted ("INSERT INTO categorization_rules (rule_id) VALUES (1)").data = true ∧
    ¬ (execute_confirmed_update (fun _ => EngineOutcome.ok (some 1))
        ("INSERT INTO categorization_rules (rule_id) VALUES (1)").data).2 = [] := by
  exact ⟨by decide, by decide, by decide⟩

/-- Claim C7 as amended: the guard takes only the SQL statement text;
the permitted kinds are hard-coded inside the function as
insert/update/delete, and its accept/reject behaviour coincides with
the spec's permitted-set-parameterized guard instantiated at exactly
that fixed set. -/
theorem guard_equals_hardcoded_configuration (s : List Char) :
    isPermitted s = guardWithPermitted permittedKinds s := by
  unfold isPermitted guardWithPermitted classify permittedKinds
  cases h1 : startsWith insKw (pyLower (pyStrip s)) <;>
    cases h2 : startsWith updKw (pyLower (pyStrip s)) <;>
      cases h3 : startsWith delKw (pyLower (pyStrip s)) <;>
        simp [h1, h2, h3]

/-- Claim C8: classification is a deterministic function of the text;
it is unchanged by adding leading/trailing whitespace and by any change
of letter case anywhere in the text (two texts with the same lower-cased
form classify alike); and the four first keywords update, delete, insert
and select lead to the four pairwise-distinct kinds `update`, `delete`,
`insert` and `unrecognized`, whatever follows the keyword. -/
theorem classification_deterministic_and_normalizing :
    (∀ s : List Char, classify s = classify s) ∧
    (∀ w1 w2 s : List Char,
      (∀ c ∈ w1, pyIsSpace c = true) → (∀ c ∈ w2, pyIsSpace c = true) →
      classify (w1 ++ s ++ w2) = classify s) ∧
    (∀ s t : List Char, pyLower s = pyLower t → classify s = classify t) ∧
    (∀ r : List Char,
      classify (updKw ++ r) = StmtKind.update ∧
      classify (delKw ++ r) = StmtKind.delete ∧
      classify (insKw ++ r) = StmtKind.insert ∧
      classify (selKw ++ r) = StmtKind.unrecognized) ∧
    (StmtKind.update ≠ StmtKind.delete ∧ StmtKind.update ≠ StmtKind.insert ∧
      StmtKind.update ≠ StmtKind.unrecognized ∧ StmtKind.delete ≠ StmtKind.insert ∧
      StmtKind.delete ≠ StmtKind.unrecognized ∧ StmtKind.insert ≠ StmtKind.unrecognized) := by
  refine ⟨fun s => rfl, ?_, ?_, ?_, by decide⟩
  · intro w1 w2 s h1 h2
    unfold classify
    rw [pyStrip_append_space s h1 h2]
  · intro s t hst
    unfold classify
    rw [← pyStrip_pyLower, hst, pyStrip_pyLower]
  · intro r
    exact ⟨classify_updKw_append r, classify_delKw_append r,
      classify_insKw_append r, classify_selKw_append r⟩

/-- Witness for claim C8: surrounding an UPDATE statement with blanks
and a tab does not change its classification, and upper-casing it does
not either. -/
theorem classification_deterministic_and_normalizing_check :
    (∀ c ∈ ("  ").data, pyIsSpace c = true) ∧
    classify (("  ").data ++ ("Update txns SET x=1").data ++ ("\t").data)
      = classify ("Update txns SET x=1").data ∧
    classify ("UPDATE TXNS SET X=1").data = classify ("update txns set x=1").data :=
  ⟨by decide,
    classification_deterministic_and_normalizing.2.1 ("  ").data ("\t").data
      ("Update txns SET x=1").data (by decide) (by decide),
    classification_deterministic_and_normalizing.2.2.1 ("UPDATE TXNS SET X=1").data
      ("update txns set x=1").data (by decide)⟩

/-- Claim C9: the empty statement and every whitespace-only statement
are rejected with the policy message, and the engine is never invoked
(its trimmed text is empty, so no keyword test can pass). -/
theorem whitespace_only_rejected (engine : Engine) (s : List Char)
    (h : ∀ c ∈ s, pyIsSpace c = true) :
    execute_confirmed_update engine s = (policyRejectionMsg, []) := by
  apply exec_of_reject
  have hnil : pyStrip s = [] := by
    unfold pyStrip
    rw [stripLeft_eq_nil h]
    rfl
  unfold isPermitted
  rw [hnil]
  rfl

/-- Witness for claim C9 at the empty string and at three blanks. -/
theorem whitespace_only_rejected_check :
    (∀ c ∈ ("   ").data, pyIsSpace c = true) ∧
    execute_confirmed_update (fun _ => EngineOutcome.ok none) ("   ").data
      = (policyRejectionMsg, []) ∧
    execute_confirmed_update (fun _ => EngineOutcome.ok none) ("").data
      = (policyRejectionMsg, []) :=
  ⟨by decide,
    whitespace_only_rejected _ _ (by decide),
    whitespace_only_rejected _ _ (by decide)⟩

/-- Claim C10: any two rejected invocations return the identical fixed
rejection string — the rejected statement's content does not influence
the rejection output. -/
theorem rejection_output_noninterference (e1 e2 : Engine) (s1 s2 : List Char)
    (h1 : isPermitted s1 = false) (h2 : isPermitted s2 = false) :
    (execute_confirmed_update e1 s1).1 = (execute_confirmed_update e2 s2).1 ∧
    (execute_confirmed_update e1 s1).1 = policyRejectionMsg := by
  rw [exec_of_reject e1 h1, exec_of_reject e2 h2]
  exact ⟨rfl, rfl⟩

/-- Witness for claim C10 at two different rejected inputs and two
different engines. -/
theorem rejection_output_noninterference_check :
    isPermitted ("select 1").data = false ∧
    isPermitted ("DROP TABLE txns").data = false ∧
    ((execute_confirmed_update (fun _ => EngineOutcome.ok (some 3)) ("select 1").data).1
      = (execute_confirmed_update (fun _ => EngineOutcome.apiCallError ("x").data)
          ("DROP TABLE txns").data).1 ∧
    (execute_confirmed_update (fun _ => EngineOutcome.ok (some 3)) ("select 1").data).1
      = policyRejectionMsg) :=
  ⟨by decide, by decide,
    rejection_output_noninterference _ _ _ _ (by decide) (by decide)⟩

end TxnInsights
